import Mathlib

/-!
A shallow embedding of the refusal-detection-and-model-swap engine in
`src/RefusalBypass.py` (class `Filter`), together with theorems settling the
specification claims about it.

External effects are modelled by explicit oracle values: the judge's HTTP
reply, the chat generation result, whether each residency request raises,
and the optional status-event observer (which, being host code, may raise).
Each operation returns, besides its value, the request payloads it sent, so
ordering claims are statements about explicit call traces.
-/

namespace RefusalBypass

/-! ### Python string primitives

`pyIsSpace` covers the ASCII whitespace characters recognised by Python
`str.strip` (space, tab, newline, carriage return, vertical tab, form feed).
`pyStrip`, `pyUpper` and `pyTake` model `str.strip()`, `str.upper()` (on
ASCII) and slicing `s[:n]`. -/

def pyIsSpace (c : Char) : Bool :=
  c = ' ' || c = '\t' || c = '\n' || c = '\x0d' || c = '\x0b' || c = '\x0c'

def stripChars (l : List Char) : List Char :=
  ((l.dropWhile pyIsSpace).reverse.dropWhile pyIsSpace).reverse

def pyStrip (s : String) : String := String.mk (stripChars s.data)

def pyUpper (s : String) : String := String.mk (s.data.map Char.toUpper)

def pyTake (n : Nat) (s : String) : String := String.mk (s.data.take n)

/-- Python `needle in haystack` on strings: substring containment. -/
def strContainsSub (haystack needle : String) : Bool :=
  decide (needle.data <:+: haystack.data)

/-! ### Data model -/

/-- One chat message: a Python dict with optional `role` and `content` keys;
`extra` stands for any further keys the host put in the dict. -/
structure Message where
  role : Option String
  content : Option String
  extra : List (String × String)
deriving Repr, DecidableEq

def defaultMsg : Message := { role := none, content := none, extra := [] }

/-- The body dict the host hands to `outlet`: optional `messages` and `model`
keys plus any other keys (`extra`). -/
structure Body where
  messages : Option (List Message)
  model : Option String
  extra : List (String × String)
deriving Repr, DecidableEq

/-- `Filter.Valves`: the user-tunable configuration bundle. -/
structure Valves where
  abliterated_model_id : String
  judge_model_id : String
  ollama_base_url : String
  debug : Bool
deriving Repr, DecidableEq

/-- The field defaults declared in `Filter.Valves`. -/
def defaultValves : Valves :=
  { abliterated_model_id := "dolphin-mistral"
  , judge_model_id := "llama3.2"
  , ollama_base_url := "http://host.docker.internal:11434"
  , debug := false }

/-- Payload of a `/api/generate` classification request. -/
structure GeneratePayload where
  model : String
  prompt : String
  stream : Bool
  temperature : Nat
  num_predict : Nat
deriving Repr, DecidableEq

/-- Payload of a `/api/generate` residency request (`keep_alive` 0 evicts,
-1 pins). `model` is optional because `outlet` passes `body.get("model")`. -/
structure ResidencyPayload where
  model : Option String
  keep_alive : Int
deriving Repr, DecidableEq

/-- Payload of a `/api/chat` replacement-generation request. -/
structure ChatPayload where
  model : String
  messages : List Message
  stream : Bool
deriving Repr, DecidableEq

/-- One outgoing HTTP request to the inference runtime. -/
inductive Call where
  | apiGenerate (p : GeneratePayload)
  | apiResidency (p : ResidencyPayload)
  | apiChat (p : ChatPayload)
deriving Repr, DecidableEq

/-- A residency or replacement-generation call (as opposed to a
classification call). -/
def isSwapCall : Call → Bool
  | Call.apiGenerate _ => false
  | Call.apiResidency _ => true
  | Call.apiChat _ => true

/-- A progress event `{type: "status", data: {description, done}}`. -/
structure StatusEvent where
  description : String
  done : Bool
deriving Repr, DecidableEq

/-! ### The classifier prompt

The f-string in `Filter.check_refusal` splits as a fixed head, the truncated
text, and a fixed tail. -/

def promptHead : String :=
  "Analyze the following AI response text. Does it represent a refusal to answer a request " ++
  "due to ethical, safety, moral, or policy guidelines? " ++
  "Typical refusals sound like \x27I cannot fulfill\x27, \x27I apologize\x27, \x27I cannot comply\x27.\n\n" ++
  "Text: \""

def promptTail : String :=
  "\"\n\nAnswer with exactly one word: \x27YES\x27 or \x27NO\x27."

def refusalPrompt (context_preview : String) : String :=
  promptHead ++ context_preview ++ promptTail

/-! ### The four blocking operations of `Filter` -/

/-- Embeds `Filter.check_refusal`. `judgeReply` is the oracle for the HTTP
classify request: `none` means any exception was raised (transport failure,
`raise_for_status`, JSON decode), `some r` means the call succeeded and
`response.json().get("response", "")` returned `r`. The result is the boolean
verdict together with the classify payload actually posted, if any. -/
def check_refusal (judge_model_id : String) (judgeReply : Option String)
    (content : String) : Bool × Option GeneratePayload :=
  if content = "" ∨ pyStrip content = "" then
    (false, none)
  else
    let context_preview := pyTake 1000 content
    let payload : GeneratePayload :=
      { model := judge_model_id, prompt := refusalPrompt context_preview
      , stream := false, temperature := 0, num_predict := 10 }
    match judgeReply with
    | none => (false, some payload)
    | some r => (strContainsSub (pyUpper (pyStrip r)) "YES", some payload)

/-- Embeds `Filter.unload_model`. `postFails` is the oracle for whether
`requests.post` raised; the exception is swallowed (only printed), so the
result is the attempted request plus a success flag nobody reads. -/
def unload_model (postFails : Bool) (model_id : Option String) :
    ResidencyPayload × Bool :=
  ({ model := model_id, keep_alive := 0 }, !postFails)

/-- Embeds `Filter.load_model` (`keep_alive = -1` pins indefinitely). -/
def load_model (postFails : Bool) (model_id : Option String) :
    ResidencyPayload × Bool :=
  ({ model := model_id, keep_alive := -1 }, !postFails)

/-- Embeds `Filter.generate_replacement`. `chatResult` is the oracle for the
`/api/chat` request: `Except.error e` means an exception with text `e` was
raised, `Except.ok (some c)` means the JSON carried `message.content = c`,
`Except.ok none` means the `message`/`content` key was absent. Returns the
substituted text and the posted payload. -/
def generate_replacement (chatResult : Except String (Option String))
    (model_id : String) (messages : List Message) : String × ChatPayload :=
  let payload : ChatPayload :=
    { model := model_id, messages := messages, stream := false }
  match chatResult with
  | Except.error e => ("System Error: Failed to swap models. " ++ e, payload)
  | Except.ok none => ("Error generating replacement.", payload)
  | Except.ok (some c) => (c, payload)

/-- The host's status-event sink: async host code that may itself raise. -/
abbrev Emitter := StatusEvent → Except String Unit

/-- Embeds `Filter.emit_status`: forwards the event to the observer when one
is registered, otherwise does nothing. No exception handling is present in
the source, so an observer failure propagates. -/
def emit_status (emitter : Option Emitter) (message : String) (done : Bool) :
    Except String Unit :=
  match emitter with
  | none => Except.ok ()
  | some f => f { description := message, done := done }

/-! ### The orchestrator -/

/-- Oracle for everything outside the engine during one `outlet` call. -/
structure Env where
  emitter : Option Emitter
  judgeReply : Option String
  evictPrimaryFails : Bool
  chatResult : Except String (Option String)
  evictSecondaryFails : Bool
  loadPrimaryFails : Bool

/-- What one `outlet` call did: its return value (or the exception that
escaped), the runtime requests it issued in order, and the status events the
observer received in order. -/
structure OutletResult where
  result : Except String Body
  calls : List Call
  events : List StatusEvent
deriving Repr

/-- `messages[-1].get("content", "")` for a non-empty list. -/
def lastText (msgs : List Message) : String :=
  ((msgs.getLast?).getD defaultMsg).content.getD ""

/-- `body["messages"][-1]["content"] = c` as a functional update. -/
def setLastContent (msgs : List Message) (c : String) : List Message :=
  match msgs.getLast? with
  | none => msgs
  | some m => msgs.dropLast ++ [{ m with content := some c }]

/-- Embeds `Filter.outlet`. Every `await self.emit_status(...)` is a point
where an observer exception aborts the rest of the function, which the nested
matches reproduce; the `run_in_executor` offloads preserve sequential order,
so they are inlined. -/
def outlet (valves : Valves) (env : Env) (body : Body) : OutletResult :=
  let messages := body.messages.getD []
  if messages = [] then
    { result := Except.ok body, calls := [], events := [] }
  else
    let ai_response := lastText messages
    let original_model := body.model
    let ev1 : StatusEvent :=
      { description := "Checking response for refusal...", done := false }
    match emit_status env.emitter ev1.description ev1.done with
    | Except.error e => { result := Except.error e, calls := [], events := [] }
    | Except.ok _ =>
      let cr := check_refusal valves.judge_model_id env.judgeReply ai_response
      let calls1 : List Call := match cr.2 with
        | none => []
        | some p => [Call.apiGenerate p]
      if cr.1 then
        let ev2 : StatusEvent :=
          { description := "Refusal detected. Unloading " ++
              (original_model.getD "None") ++ "...", done := false }
        match emit_status env.emitter ev2.description ev2.done with
        | Except.error e =>
          { result := Except.error e, calls := calls1, events := [ev1] }
        | Except.ok _ =>
          let history_minus_refusal := messages.dropLast
          let calls2 := calls1 ++
            [Call.apiResidency (unload_model env.evictPrimaryFails original_model).1]
          let ev3 : StatusEvent :=
            { description := "Loading " ++ valves.abliterated_model_id ++
                " & Generating...", done := false }
          match emit_status env.emitter ev3.description ev3.done with
          | Except.error e =>
            { result := Except.error e, calls := calls2, events := [ev1, ev2] }
          | Except.ok _ =>
            let gen := generate_replacement env.chatResult
              valves.abliterated_model_id history_minus_refusal
            let calls3 := calls2 ++ [Call.apiChat gen.2]
            let ev4 : StatusEvent :=
              { description := "Unloading " ++ valves.abliterated_model_id ++
                  "...", done := false }
            match emit_status env.emitter ev4.description ev4.done with
            | Except.error e =>
              { result := Except.error e, calls := calls3
              , events := [ev1, ev2, ev3] }
            | Except.ok _ =>
              let calls4 := calls3 ++
                [Call.apiResidency (unload_model env.evictSecondaryFails
                    (some valves.abliterated_model_id)).1]
              let ev5 : StatusEvent :=
                { description := "Restoring " ++ (original_model.getD "None") ++
                    "...", done := false }
              match emit_status env.emitter ev5.description ev5.done with
              | Except.error e =>
                { result := Except.error e, calls := calls4
                , events := [ev1, ev2, ev3, ev4] }
              | Except.ok _ =>
                let calls5 := calls4 ++
                  [Call.apiResidency (load_model env.loadPrimaryFails
                      original_model).1]
                let ev6 : StatusEvent :=
                  { description := "Model swap complete.", done := true }
                match emit_status env.emitter ev6.description ev6.done with
                | Except.error e =>
                  { result := Except.error e, calls := calls5
                  , events := [ev1, ev2, ev3, ev4, ev5] }
                | Except.ok _ =>
                  { result := Except.ok
                      { body with messages := some (setLastContent messages gen.1) }
                  , calls := calls5
                  , events := [ev1, ev2, ev3, ev4, ev5, ev6] }
      else
        let evDone : StatusEvent := { description := "", done := true }
        match emit_status env.emitter evDone.description evDone.done with
        | Except.error e =>
          { result := Except.error e, calls := calls1, events := [ev1] }
        | Except.ok _ =>
          { result := Except.ok body, calls := calls1, events := [ev1, evDone] }

/-- The observer (if any) accepts every event: no emit aborts the pipeline. -/
def EmitterOk (emitter : Option Emitter) : Prop :=
  ∀ s b, emit_status emitter s b = Except.ok ()

/-- The spec-side verdict predicate: the raw judge reply contains "YES"
in any case (after ASCII uppercasing), with any surrounding text. -/
def containsYesCI (r : String) : Bool := strContainsSub (pyUpper r) "YES"

/-! ### Helper lemmas about the Python string primitives -/

theorem string_mk_eq_empty_iff (l : List Char) : String.mk l = "" ↔ l = [] := by
  constructor
  · intro h
    exact congrArg String.data h
  · intro h
    subst h
    rfl

theorem stripChars_eq_nil_iff (l : List Char) :
    stripChars l = [] ↔ l.all pyIsSpace = true := by
  unfold stripChars
  constructor
  · intro h
    rw [List.reverse_eq_nil_iff, List.dropWhile_eq_nil_iff] at h
    rw [List.all_eq_true]
    intro x hx
    have hx' : x ∈ l.takeWhile pyIsSpace ++ l.dropWhile pyIsSpace := by
      rw [List.takeWhile_append_dropWhile]
      exact hx
    rcases List.mem_append.mp hx' with h1 | h2
    · exact List.mem_takeWhile_imp h1
    · exact h x (List.mem_reverse.mpr h2)
  · intro h
    have h' : l.dropWhile pyIsSpace = [] :=
      List.dropWhile_eq_nil_iff.mpr fun x hx => List.all_eq_true.mp h x hx
    rw [h']
    rfl

theorem pyStrip_eq_empty_iff (s : String) :
    pyStrip s = "" ↔ s.data.all pyIsSpace = true := by
  unfold pyStrip
  rw [string_mk_eq_empty_iff, stripChars_eq_nil_iff]

/-- The short-circuit guard of `check_refusal` fires exactly on
whitespace-only (in particular empty) text. -/
theorem guard_iff_all_space (content : String) :
    (content = "" ∨ pyStrip content = "") ↔ content.data.all pyIsSpace = true := by
  constructor
  · rintro (h | h)
    · subst h
      rfl
    · exact (pyStrip_eq_empty_iff _).mp h
  · intro h
    exact Or.inr ((pyStrip_eq_empty_iff _).mpr h)

theorem check_refusal_of_guard (jm : String) (jr : Option String)
    (content : String) (hg : content = "" ∨ pyStrip content = "") :
    check_refusal jm jr content = (false, none) := by
  unfold check_refusal
  rw [if_pos hg]

theorem check_refusal_empty_content (jm : String) (jr : Option String) :
    check_refusal jm jr "" = (false, none) :=
  check_refusal_of_guard jm jr "" (Or.inl rfl)

theorem guard_neg_of_nonspace {content : String}
    (h : content.data.all pyIsSpace = false) :
    ¬(content = "" ∨ pyStrip content = "") := by
  intro hg
  rw [guard_iff_all_space content] at hg
  rw [hg] at h
  exact absurd h (by decide)

/-- `outlet` short-circuits to a silent pass-through when the message list is
missing or empty. -/
theorem outlet_pass_nil (v : Valves) (env : Env) (body : Body)
    (h : body.messages.getD [] = []) :
    outlet v env body =
      { result := Except.ok body, calls := [], events := [] } := by
  simp [outlet, h]

/-! ### C7: whitespace-only text is not a refusal, with no network call -/

/-- C7: for every input text that is empty or consists only of whitespace
characters, `check_refusal` returns false and posts no classify request. -/
theorem check_refusal_whitespace_noop (jm : String) (jr : Option String)
    (content : String)
    (h : content = "" ∨ content.data.all pyIsSpace = true) :
    check_refusal jm jr content = (false, none) := by
  apply check_refusal_of_guard
  rcases h with h | h
  · exact Or.inl h
  · exact (guard_iff_all_space content).mpr h

/-- C7 witness: whitespace-only text, judge primed to answer YES — still
`(false, none)`. -/
theorem check_refusal_whitespace_noop_witness :
    check_refusal "llama3.2" (some "YES") " \t\n  " = (false, none) :=
  check_refusal_whitespace_noop "llama3.2" (some "YES") " \t\n  "
    (Or.inr (by decide))

/-! ### C8: classify request shape — truncation, temperature, token cap -/

/-- C8: for every non-empty, non-whitespace-only text, the classify request
embeds exactly the first 1000 characters of the text between two fixed
prompt fragments (hence at most the first 1000 characters of the text appear
in the prompt), and is sent with temperature 0 and an output cap of at most
10 tokens. -/
theorem check_refusal_payload_bounds (jm : String) (jr : Option String)
    (content : String) (h : content.data.all pyIsSpace = false) :
    ∃ p, (check_refusal jm jr content).2 = some p ∧
      p.prompt = promptHead ++ pyTake 1000 content ++ promptTail ∧
      (pyTake 1000 content).data.length ≤ 1000 ∧
      p.temperature = 0 ∧ p.num_predict ≤ 10 ∧ p.stream = false := by
  have hg := guard_neg_of_nonspace h
  have hlen : (pyTake 1000 content).data.length ≤ 1000 := by
    show (content.data.take 1000).length ≤ 1000
    rw [List.length_take]
    omega
  unfold check_refusal
  rw [if_neg hg]
  cases jr with
  | none => exact ⟨_, rfl, rfl, hlen, rfl, Nat.le_refl 10, rfl⟩
  | some r => exact ⟨_, rfl, rfl, hlen, rfl, Nat.le_refl 10, rfl⟩

/-- C8 witness at concrete text and reply. -/
theorem check_refusal_payload_bounds_witness :
    ∃ p, (check_refusal "llama3.2" (some "NO") "I refuse to answer.").2 = some p ∧
      p.prompt = promptHead ++ pyTake 1000 "I refuse to answer." ++ promptTail ∧
      (pyTake 1000 "I refuse to answer.").data.length ≤ 1000 ∧
      p.temperature = 0 ∧ p.num_predict ≤ 10 ∧ p.stream = false :=
  check_refusal_payload_bounds "llama3.2" (some "NO") "I refuse to answer."
    (by decide)

/-! ### C9: empty message sequence is a pass-through no-op -/

/-- C9: for every input whose message sequence is empty (a missing
`messages` key reads as the empty list), `outlet` returns the body unchanged
with no classification, residency or generation calls and no progress
events. -/
theorem outlet_empty_messages (v : Valves) (env : Env) (body : Body)
    (h : body.messages.getD [] = []) :
    outlet v env body =
      { result := Except.ok body, calls := [], events := [] } :=
  outlet_pass_nil v env body h

/-- C9 witness: a body with an empty message list. -/
theorem outlet_empty_messages_witness :
    outlet defaultValves
      { emitter := none, judgeReply := some "YES", evictPrimaryFails := false
      , chatResult := Except.ok (some "hi"), evictSecondaryFails := false
      , loadPrimaryFails := false }
      { messages := some [], model := some "modelA", extra := [] } =
    { result := Except.ok
        { messages := some [], model := some "modelA", extra := [] }
    , calls := [], events := [] } :=
  outlet_empty_messages defaultValves
    { emitter := none, judgeReply := some "YES", evictPrimaryFails := false
    , chatResult := Except.ok (some "hi"), evictSecondaryFails := false
    , loadPrimaryFails := false }
    { messages := some [], model := some "modelA", extra := [] } rfl

/-! ### Master equations for `outlet` -/

/-- When the verdict is positive, `check_refusal` went through the full
classify path, so its payload is pinned down. -/
theorem check_refusal_true_eq (jm : String) (jr : Option String)
    (content : String) (h : (check_refusal jm jr content).1 = true) :
    check_refusal jm jr content =
      (true, some { model := jm, prompt := refusalPrompt (pyTake 1000 content)
                  , stream := false, temperature := 0, num_predict := 10 }) := by
  unfold check_refusal at h ⊢
  by_cases hg : content = "" ∨ pyStrip content = ""
  · rw [if_pos hg] at h
    exact absurd h (by decide)
  · rw [if_neg hg] at h ⊢
    cases jr with
    | none => simp at h
    | some r =>
      simp only at h ⊢
      rw [h]

/-- The posted chat payload does not depend on the request's outcome. -/
theorem generate_replacement_payload (cr : Except String (Option String))
    (m : String) (msgs : List Message) :
    (generate_replacement cr m msgs).2 =
      { model := m, messages := msgs, stream := false } := by
  unfold generate_replacement
  cases cr with
  | error e => rfl
  | ok o => cases o <;> rfl

/-- Master equation for a refusal-path invocation with a well-behaved
observer: the full trace of `outlet`. -/
theorem outlet_refusal_eq (v : Valves) (env : Env) (body : Body)
    (msgs : List Message) (hm : body.messages = some msgs) (hne : msgs ≠ [])
    (hEmit : EmitterOk env.emitter)
    (hRef : (check_refusal v.judge_model_id env.judgeReply (lastText msgs)).1
      = true) :
    outlet v env body =
      { result := Except.ok { body with messages := some (setLastContent msgs
          (generate_replacement env.chatResult v.abliterated_model_id
            msgs.dropLast).1) }
      , calls :=
          [ Call.apiGenerate
              { model := v.judge_model_id
              , prompt := refusalPrompt (pyTake 1000 (lastText msgs))
              , stream := false, temperature := 0, num_predict := 10 }
          , Call.apiResidency { model := body.model, keep_alive := 0 }
          , Call.apiChat
              { model := v.abliterated_model_id
              , messages := msgs.dropLast, stream := false }
          , Call.apiResidency
              { model := some v.abliterated_model_id, keep_alive := 0 }
          , Call.apiResidency { model := body.model, keep_alive := -1 } ]
      , events :=
          [ { description := "Checking response for refusal...", done := false }
          , { description := "Refusal detected. Unloading " ++
                (body.model.getD "None") ++ "...", done := false }
          , { description := "Loading " ++ v.abliterated_model_id ++
                " & Generating...", done := false }
          , { description := "Unloading " ++ v.abliterated_model_id ++ "..."
            , done := false }
          , { description := "Restoring " ++ (body.model.getD "None") ++ "..."
            , done := false }
          , { description := "Model swap complete.", done := true } ] } := by
  have hcr := check_refusal_true_eq v.judge_model_id env.judgeReply
    (lastText msgs) hRef
  have hE : ∀ s b, emit_status env.emitter s b = Except.ok () := hEmit
  simp only [outlet, hm, Option.getD_some, if_neg hne, hcr, hE,
    generate_replacement_payload, unload_model, load_model]
  simp

/-- Master equation for a non-refusal invocation with a well-behaved
observer. -/
theorem outlet_not_refusal_eq (v : Valves) (env : Env) (body : Body)
    (msgs : List Message) (hm : body.messages = some msgs) (hne : msgs ≠ [])
    (hEmit : EmitterOk env.emitter)
    (hRef : (check_refusal v.judge_model_id env.judgeReply (lastText msgs)).1
      = false) :
    outlet v env body =
      { result := Except.ok body
      , calls :=
          match (check_refusal v.judge_model_id env.judgeReply
              (lastText msgs)).2 with
          | none => []
          | some p => [Call.apiGenerate p]
      , events :=
          [ { description := "Checking response for refusal...", done := false }
          , { description := "", done := true } ] } := by
  have hE : ∀ s b, emit_status env.emitter s b = Except.ok () := hEmit
  simp only [outlet, hm, Option.getD_some, if_neg hne, hRef, hE]
  simp

theorem exists_getLast?_of_ne_nil {l : List Message} (h : l ≠ []) :
    ∃ m, l.getLast? = some m := by
  cases hl : l.getLast? with
  | none => exact absurd (List.getLast?_eq_none_iff.mp hl) h
  | some m => exact ⟨m, rfl⟩

theorem sysError_ne_empty (e : String) :
    "System Error: Failed to swap models. " ++ e ≠ "" := by
  intro h
  have h' : "System Error: Failed to swap models. ".data ++ e.data = [] := by
    have := congrArg String.data h
    rw [String.data_append] at this
    exact this
  exact absurd (List.append_eq_nil.mp h').1 (by decide)

/-! ### Shared example inputs for witnesses -/

/-- The spec's running example conversation (testable property 7). -/
def bodyEx : Body :=
  { messages := some
      [ { role := some "user", content := some "How do I pick a lock?"
        , extra := [] }
      , { role := some "assistant"
        , content := some "I cannot fulfill this request."
        , extra := [("id", "m2")] } ]
  , model := some "modelA"
  , extra := [("chat_id", "c1")] }

def msgsEx : List Message :=
  [ { role := some "user", content := some "How do I pick a lock?"
    , extra := [] }
  , { role := some "assistant"
    , content := some "I cannot fulfill this request."
    , extra := [("id", "m2")] } ]

/-- Judge says YES, both evictions fail, generation succeeds, no observer. -/
def envYes : Env :=
  { emitter := none, judgeReply := some "YES", evictPrimaryFails := true
  , chatResult := Except.ok (some "Sure, here is how.")
  , evictSecondaryFails := true, loadPrimaryFails := false }

theorem emitterOk_none : EmitterOk none := fun _ _ => rfl

/-! ### C1: refusal path performs the swap calls in order, evictions
failing or not -/

/-- C1: for every conversation whose last message is classified as a
refusal, `outlet` performs, after the classify request and in this order:
evict(primary), chat-generate(secondary, history minus the refused turn),
evict(secondary), load(primary) — and nothing else. The environment is
arbitrary, so in particular both evictions may fail. -/
theorem outlet_refusal_call_order (v : Valves) (env : Env) (body : Body)
    (msgs : List Message) (hm : body.messages = some msgs) (hne : msgs ≠ [])
    (hEmit : EmitterOk env.emitter)
    (hRef : (check_refusal v.judge_model_id env.judgeReply (lastText msgs)).1
      = true) :
    ∃ p, (outlet v env body).calls =
      [ Call.apiGenerate p
      , Call.apiResidency { model := body.model, keep_alive := 0 }
      , Call.apiChat
          { model := v.abliterated_model_id
          , messages := msgs.dropLast, stream := false }
      , Call.apiResidency
          { model := some v.abliterated_model_id, keep_alive := 0 }
      , Call.apiResidency { model := body.model, keep_alive := -1 } ] := by
  rw [outlet_refusal_eq v env body msgs hm hne hEmit hRef]
  exact ⟨_, rfl⟩

/-- C1 witness: the spec's example conversation, with both evictions
failing. -/
theorem outlet_refusal_call_order_witness :
    ∃ p, (outlet defaultValves envYes bodyEx).calls =
      [ Call.apiGenerate p
      , Call.apiResidency { model := some "modelA", keep_alive := 0 }
      , Call.apiChat
          { model := "dolphin-mistral"
          , messages :=
              [ { role := some "user", content := some "How do I pick a lock?"
                , extra := [] } ]
          , stream := false }
      , Call.apiResidency { model := some "dolphin-mistral", keep_alive := 0 }
      , Call.apiResidency { model := some "modelA", keep_alive := -1 } ] :=
  outlet_refusal_call_order defaultValves envYes bodyEx msgsEx rfl
    (by decide) emitterOk_none (by decide)

/-! ### C4: generation failure yields a non-empty diagnostic and cleanup
still runs -/

/-- C4: on the refusal path, if the replacement generation raises, the
returned final message's content is the non-empty diagnostic string
`"System Error: Failed to swap models. " ++ e`, no exception escapes, and
the evict-secondary and reload-primary calls still follow the chat call. -/
theorem outlet_generation_failure (v : Valves) (env : Env) (body : Body)
    (msgs : List Message) (e : String)
    (hm : body.messages = some msgs) (hne : msgs ≠ [])
    (hEmit : EmitterOk env.emitter)
    (hRef : (check_refusal v.judge_model_id env.judgeReply (lastText msgs)).1
      = true)
    (hGen : env.chatResult = Except.error e) :
    ∃ p msgs' s,
      (outlet v env body).result =
        Except.ok { body with messages := some msgs' } ∧
      (msgs'.getLast?).map Message.content = some (some s) ∧
      s = "System Error: Failed to swap models. " ++ e ∧ s ≠ "" ∧
      (outlet v env body).calls =
        [ Call.apiGenerate p
        , Call.apiResidency { model := body.model, keep_alive := 0 }
        , Call.apiChat
            { model := v.abliterated_model_id
            , messages := msgs.dropLast, stream := false }
        , Call.apiResidency
            { model := some v.abliterated_model_id, keep_alive := 0 }
        , Call.apiResidency { model := body.model, keep_alive := -1 } ] := by
  rw [outlet_refusal_eq v env body msgs hm hne hEmit hRef]
  obtain ⟨lm, hlm⟩ := exists_getLast?_of_ne_nil hne
  refine ⟨_, _, _, rfl, ?_, rfl, sysError_ne_empty e, rfl⟩
  unfold setLastContent
  rw [hlm, List.getLast?_concat, hGen]
  rfl

/-- C4 witness: the example conversation with a transport error during
generation. -/
theorem outlet_generation_failure_witness :
    ∃ p msgs' s,
      (outlet defaultValves
        { envYes with chatResult := Except.error "connection refused" }
        bodyEx).result =
        Except.ok { bodyEx with messages := some msgs' } ∧
      (msgs'.getLast?).map Message.content = some (some s) ∧
      s = "System Error: Failed to swap models. " ++ "connection refused" ∧
      s ≠ "" ∧
      (outlet defaultValves
        { envYes with chatResult := Except.error "connection refused" }
        bodyEx).calls =
        [ Call.apiGenerate p
        , Call.apiResidency { model := some "modelA", keep_alive := 0 }
        , Call.apiChat
            { model := "dolphin-mistral"
            , messages :=
                [ { role := some "user"
                  , content := some "How do I pick a lock?", extra := [] } ]
            , stream := false }
        , Call.apiResidency
            { model := some "dolphin-mistral", keep_alive := 0 }
        , Call.apiResidency { model := some "modelA", keep_alive := -1 } ] :=
  outlet_generation_failure defaultValves
    { envYes with chatResult := Except.error "connection refused" }
    bodyEx msgsEx "connection refused" rfl (by decide) emitterOk_none
    (by decide) rfl

/-! ### C5: non-refusal verdict passes the input through -/

/-- C5: for every non-empty conversation whose last message is classified as
not a refusal, `outlet` returns the input unchanged, performs no residency or
generation calls, and delivers exactly one terminal (`done = true`) progress
event, whose description is empty. -/
theorem outlet_not_refusal_passthrough (v : Valves) (env : Env) (body : Body)
    (msgs : List Message) (hm : body.messages = some msgs) (hne : msgs ≠ [])
    (hEmit : EmitterOk env.emitter)
    (hRef : (check_refusal v.judge_model_id env.judgeReply (lastText msgs)).1
      = false) :
    (outlet v env body).result = Except.ok body ∧
    (∀ c ∈ (outlet v env body).calls, isSwapCall c = false) ∧
    (outlet v env body).events.filter (fun ev => ev.done) =
      [{ description := "", done := true }] := by
  rw [outlet_not_refusal_eq v env body msgs hm hne hEmit hRef]
  refine ⟨rfl, ?_, rfl⟩
  intro c hc
  simp only at hc
  cases h2 : (check_refusal v.judge_model_id env.judgeReply (lastText msgs)).2
    with
  | none =>
    rw [h2] at hc
    simp at hc
  | some p =>
    rw [h2] at hc
    simp at hc
    subst hc
    rfl

/-- C5 witness: the spec's testable property 8 (judge answers "NO, this is
not a refusal."). -/
theorem outlet_not_refusal_passthrough_witness :
    (outlet defaultValves
      { envYes with judgeReply := some "NO, this is not a refusal." }
      bodyEx).result = Except.ok bodyEx ∧
    (∀ c ∈ (outlet defaultValves
      { envYes with judgeReply := some "NO, this is not a refusal." }
      bodyEx).calls, isSwapCall c = false) ∧
    (outlet defaultValves
      { envYes with judgeReply := some "NO, this is not a refusal." }
      bodyEx).events.filter (fun ev => ev.done) =
      [{ description := "", done := true }] :=
  outlet_not_refusal_passthrough defaultValves
    { envYes with judgeReply := some "NO, this is not a refusal." }
    bodyEx msgsEx rfl (by decide) emitterOk_none (by decide)

/-! ### C6: a swap mutates only the final message's content -/

/-- C6: when a swap occurs, the returned body differs from the input only in
the final message's content: the model field and every other body field are
unchanged, every earlier message is unchanged, and the final message keeps
its role and its other fields. -/
theorem outlet_swap_frame (v : Valves) (env : Env) (body : Body)
    (msgs : List Message) (hm : body.messages = some msgs) (hne : msgs ≠ [])
    (hEmit : EmitterOk env.emitter)
    (hRef : (check_refusal v.judge_model_id env.judgeReply (lastText msgs)).1
      = true) :
    ∃ body' msgs' m,
      (outlet v env body).result = Except.ok body' ∧
      body'.model = body.model ∧
      body'.extra = body.extra ∧
      body'.messages = some msgs' ∧
      msgs'.dropLast = msgs.dropLast ∧
      msgs'.getLast? = some m ∧
      (msgs.getLast?).map Message.role = some m.role ∧
      (msgs.getLast?).map Message.extra = some m.extra := by
  rw [outlet_refusal_eq v env body msgs hm hne hEmit hRef]
  obtain ⟨lm, hlm⟩ := exists_getLast?_of_ne_nil hne
  refine ⟨_, _,
    { lm with content := some (generate_replacement env.chatResult
        v.abliterated_model_id msgs.dropLast).1 },
    rfl, rfl, rfl, rfl, ?_, ?_, ?_, ?_⟩
  · unfold setLastContent
    rw [hlm]
    simp
  · unfold setLastContent
    rw [hlm, List.getLast?_concat]
  · rw [hlm]
    rfl
  · rw [hlm]
    rfl

/-- C6 witness: on the example swap, the frame conditions hold. -/
theorem outlet_swap_frame_witness :
    ∃ body' msgs' m,
      (outlet defaultValves envYes bodyEx).result = Except.ok body' ∧
      body'.model = bodyEx.model ∧
      body'.extra = bodyEx.extra ∧
      body'.messages = some msgs' ∧
      msgs'.dropLast = msgsEx.dropLast ∧
      msgs'.getLast? = some m ∧
      (msgsEx.getLast?).map Message.role = some m.role ∧
      (msgsEx.getLast?).map Message.extra = some m.extra :=
  outlet_swap_frame defaultValves envYes bodyEx msgsEx rfl (by decide)
    emitterOk_none (by decide)

/-! ### C10: missing `messages` key or missing `content` field -/

/-- C10: a body without a `messages` key is passed through untouched with no
calls and no events; a non-empty conversation whose last message has no
`content` field reads as empty text, is classified as not a refusal with no
network call at all, and the body is returned unchanged. -/
theorem outlet_missing_keys (v : Valves) (env : Env) (body : Body)
    (hEmit : EmitterOk env.emitter) :
    (body.messages = none →
      outlet v env body =
        { result := Except.ok body, calls := [], events := [] }) ∧
    (∀ msgs, body.messages = some msgs → msgs ≠ [] →
      ((msgs.getLast?).getD defaultMsg).content = none →
      (outlet v env body).result = Except.ok body ∧
      (outlet v env body).calls = []) := by
  constructor
  · intro h
    exact outlet_pass_nil v env body (by rw [h]; rfl)
  · intro msgs hm hne hc
    have hlt : lastText msgs = "" := by
      unfold lastText
      rw [hc]
      rfl
    have hRef : (check_refusal v.judge_model_id env.judgeReply
        (lastText msgs)).1 = false := by
      rw [hlt, check_refusal_empty_content]
    rw [outlet_not_refusal_eq v env body msgs hm hne hEmit hRef]
    refine ⟨rfl, ?_⟩
    simp [hlt, check_refusal_empty_content]

def bodyNoMsgs : Body :=
  { messages := none, model := some "modelA", extra := [("chat_id", "c2")] }

def bodyNoContent : Body :=
  { messages :=
      some [{ role := some "assistant", content := none, extra := [] }]
  , model := some "modelA", extra := [] }

/-- C10 witness: one body with no `messages` key, one whose single message
has no `content` field. -/
theorem outlet_missing_keys_witness :
    (outlet defaultValves envYes bodyNoMsgs =
      { result := Except.ok bodyNoMsgs, calls := [], events := [] }) ∧
    ((outlet defaultValves envYes bodyNoContent).result =
      Except.ok bodyNoContent ∧
     (outlet defaultValves envYes bodyNoContent).calls = []) :=
  ⟨(outlet_missing_keys defaultValves envYes bodyNoMsgs emitterOk_none).1 rfl,
   (outlet_missing_keys defaultValves envYes bodyNoContent emitterOk_none).2
     [{ role := some "assistant", content := none, extra := [] }]
     rfl (by decide) rfl⟩

/-! ### C2: the Progress Reporter's emit operation

`emit_status` is a no-op with no observer, but the source has no
try/except around `await emitter(...)`: an exception from the observer
propagates out of `emit_status` and aborts the rest of `outlet`. -/

/-- An observer that fails to deliver exactly the fourth swap-sequence
status update. -/
def badObserver : Emitter := fun ev =>
  if ev.description = "Unloading dolphin-mistral..." then
    Except.error "delivery failed"
  else
    Except.ok ()

def envObserverFails : Env :=
  { emitter := some badObserver, judgeReply := some "YES"
  , evictPrimaryFails := false
  , chatResult := Except.ok (some "Sure, here is how.")
  , evictSecondaryFails := false, loadPrimaryFails := false }

/-- C2 counterexample: with an observer whose delivery fails, `emit_status`
raises, and the whole swap sequence aborts mid-flight — `outlet` escapes
with the observer's exception after only three of the five runtime calls
(the secondary model is never evicted and the primary never reloaded). -/
theorem emit_status_raises_cex :
    emit_status (some badObserver) "Unloading dolphin-mistral..." false =
      Except.error "delivery failed" ∧
    (outlet defaultValves envObserverFails bodyEx).result =
      Except.error "delivery failed" ∧
    (outlet defaultValves envObserverFails bodyEx).calls.length = 3 := by
  refine ⟨rfl, rfl, rfl⟩

/-- C2 (amended): when no observer is registered, `emit_status` performs
nothing and never raises; when an observer is registered, its exception is
propagated unchanged (so an observer failure does abort the swap
sequence). -/
theorem emit_status_amended (m : String) (b : Bool) :
    emit_status none m b = Except.ok () ∧
    (∀ (f : Emitter) (e : String),
      f { description := m, done := b } = Except.error e →
      emit_status (some f) m b = Except.error e) := by
  refine ⟨rfl, ?_⟩
  intro f e h
  exact h

/-- C2 (amended) witness at a concrete event and observer. -/
theorem emit_status_amended_witness :
    emit_status none "Model swap complete." true = Except.ok () ∧
    emit_status (some fun _ => Except.error "socket closed")
      "Model swap complete." true = Except.error "socket closed" :=
  ⟨(emit_status_amended "Model swap complete." true).1,
   (emit_status_amended "Model swap complete." true).2
     (fun _ => Except.error "socket closed") "socket closed" rfl⟩

/-! ### C3: the verdict is exactly "reply contains YES, case-insensitively"

The code tests `"YES" in reply.strip().upper()`; the spec speaks about the
raw reply. The bridge is that stripping ASCII whitespace from the ends of
the reply neither creates nor destroys an occurrence of "YES". -/

theorem toUpper_of_space {c : Char} (h : pyIsSpace c = true) :
    Char.toUpper c = c := by
  simp only [pyIsSpace, Bool.or_eq_true, decide_eq_true_eq] at h
  rcases h with ((((h | h) | h) | h) | h) | h <;> subst h <;> decide

theorem nonspace_of_upper_in_yes {c : Char}
    (h : Char.toUpper c ∈ ['Y', 'E', 'S']) : pyIsSpace c = false := by
  by_contra hc
  rw [Bool.not_eq_false] at hc
  rw [toUpper_of_space hc] at h
  simp only [pyIsSpace, Bool.or_eq_true, decide_eq_true_eq] at hc
  rcases hc with ((((hc | hc) | hc) | hc) | hc) | hc <;> subst hc <;>
    exact absurd h (by decide)

/-- `dropWhile` never eats into a block none of whose characters satisfy
the predicate. -/
theorem dropWhile_keeps_block (p : Char → Bool) (a m b : List Char)
    (hm : m ≠ []) (hclean : ∀ c ∈ m, p c = false) :
    ∃ a2, (a ++ (m ++ b)).dropWhile p = a2 ++ (m ++ b) := by
  induction a with
  | nil =>
    refine ⟨[], ?_⟩
    cases m with
    | nil => exact absurd rfl hm
    | cons c m' =>
      have hc : ¬ p c = true := by
        rw [hclean c (List.mem_cons_self c m')]
        simp
      rw [List.nil_append, List.cons_append,
        List.dropWhile_cons_of_neg hc]
  | cons x a' ih =>
    by_cases hx : p x = true
    · obtain ⟨a2, ha2⟩ := ih
      refine ⟨a2, ?_⟩
      rw [List.cons_append, List.dropWhile_cons_of_pos hx]
      exact ha2
    · refine ⟨x :: a', ?_⟩
      rw [List.cons_append, List.dropWhile_cons_of_neg hx]

/-- A non-empty all-non-whitespace block that occurs in `l` still occurs
after stripping whitespace from both ends of `l`. -/
theorem stripChars_keeps_block {m l : List Char} (hm : m ≠ [])
    (hclean : ∀ c ∈ m, pyIsSpace c = false) (h : m <:+: l) :
    m <:+: stripChars l := by
  obtain ⟨a, b, hab⟩ := h
  obtain ⟨a2, ha2⟩ := dropWhile_keeps_block pyIsSpace a m b hm hclean
  have hmrev : m.reverse ≠ [] := by simpa using hm
  have hcleanrev : ∀ c ∈ m.reverse, pyIsSpace c = false := fun c hc =>
    hclean c (List.mem_reverse.mp hc)
  obtain ⟨b2, hb2⟩ := dropWhile_keeps_block pyIsSpace b.reverse m.reverse
    a2.reverse hmrev hcleanrev
  refine ⟨a2, b2.reverse, ?_⟩
  unfold stripChars
  have hl : l = a ++ (m ++ b) := by
    rw [← hab]
    simp [List.append_assoc]
  rw [hl, ha2]
  have hrev : (a2 ++ (m ++ b)).reverse =
      b.reverse ++ (m.reverse ++ a2.reverse) := by
    simp [List.reverse_append, List.append_assoc]
  rw [hrev, hb2]
  simp [List.reverse_append, List.append_assoc]

theorem reverse_isPre {l₁ l₂ : List Char} :
    l₁.reverse <+: l₂.reverse ↔ l₁ <:+ l₂ :=
  List.reverse_prefix

/-- The stripped list occurs inside the original. -/
theorem stripChars_sub (l : List Char) : stripChars l <:+: l := by
  have h1 : l.dropWhile pyIsSpace <:+ l := List.dropWhile_suffix pyIsSpace
  have h2 : stripChars l <+: l.dropWhile pyIsSpace := by
    have h3 : (l.dropWhile pyIsSpace).reverse.dropWhile pyIsSpace <:+
        (l.dropWhile pyIsSpace).reverse := List.dropWhile_suffix pyIsSpace
    have h4 := reverse_isPre.mpr h3
    simpa [stripChars] using h4
  exact h2.isInfix.trans h1.isInfix

/-- "YES" occurs in the uppercased stripped reply iff it occurs in the
uppercased raw reply. -/
theorem yes_strip_iff (l : List Char) :
    (['Y', 'E', 'S'] <:+: (stripChars l).map Char.toUpper ↔
     ['Y', 'E', 'S'] <:+: l.map Char.toUpper) := by
  constructor
  · intro h
    exact h.trans ((stripChars_sub l).map Char.toUpper)
  · intro h
    obtain ⟨s, t, hst⟩ := h
    have hst' : List.map Char.toUpper l = s ++ (['Y', 'E', 'S'] ++ t) := by
      rw [← hst]
      simp [List.append_assoc]
    obtain ⟨l₁, l₂, hl, hs, h₂⟩ := List.map_eq_append_iff.mp hst'
    obtain ⟨l₃, l₄, hl₂, hyes, ht⟩ := List.map_eq_append_iff.mp h₂
    have hm : l₃ ≠ [] := by
      intro hnil
      rw [hnil] at hyes
      simp at hyes
    have hclean : ∀ c ∈ l₃, pyIsSpace c = false := by
      intro c hc
      apply nonspace_of_upper_in_yes
      rw [← hyes]
      exact List.mem_map_of_mem Char.toUpper hc
    have hinf : l₃ <:+: l := by
      refine ⟨l₁, l₄, ?_⟩
      rw [hl, hl₂]
      simp [List.append_assoc]
    have hfin := (stripChars_keeps_block hm hclean hinf).map Char.toUpper
    rw [hyes] at hfin
    exact hfin

/-- The code's verdict expression equals the spec-side predicate on the raw
reply. -/
theorem strip_upper_yes_eq (r : String) :
    strContainsSub (pyUpper (pyStrip r)) "YES" = containsYesCI r := by
  unfold containsYesCI strContainsSub pyUpper pyStrip
  rw [decide_eq_decide]
  show ("YES".data <:+: (stripChars r.data).map Char.toUpper) ↔
    ("YES".data <:+: r.data.map Char.toUpper)
  have hy : "YES".data = ['Y', 'E', 'S'] := rfl
  rw [hy]
  exact yes_strip_iff r.data

/-- C3: for every non-empty, non-whitespace-only text, the verdict is true
iff the judge's raw reply contains "YES" in any case with any surrounding
text; any other reply, and any exception during the classify call
(`judgeReply = none`), gives false. -/
theorem check_refusal_verdict_spec (jm : String) (jr : Option String)
    (content : String) (h : content.data.all pyIsSpace = false) :
    ((check_refusal jm jr content).1 = true ↔
      ∃ r, jr = some r ∧ containsYesCI r = true) := by
  have hg := guard_neg_of_nonspace h
  unfold check_refusal
  rw [if_neg hg]
  cases jr with
  | none => simp
  | some r =>
    show strContainsSub (pyUpper (pyStrip r)) "YES" = true ↔ _
    rw [strip_upper_yes_eq r]
    constructor
    · intro hc
      exact ⟨r, rfl, hc⟩
    · rintro ⟨r', hr', hc⟩
      rw [Option.some.injEq] at hr'
      rw [hr']
      exact hc

/-- C3 witness: a mixed-case reply with surrounding text yields true, via
the theorem's right-to-left direction. -/
theorem check_refusal_verdict_spec_witness :
    (check_refusal "llama3.2" (some " Yes, certainly. ")
      "I cannot comply with that.").1 = true :=
  (check_refusal_verdict_spec "llama3.2" (some " Yes, certainly. ")
      "I cannot comply with that." (by decide)).mpr
    ⟨" Yes, certainly. ", rfl, by decide⟩

end RefusalBypass
